import Mathlib

/-!
Verification of the ravendb-python-client specification against the code.

Part A embeds `ravendb/documents/operations/statistics.py` (under src/):
the JSON-to-object mappers `DatabaseStatistics.from_json`,
`IndexInformation.from_json` and `DetailedDatabaseStatistics.from_json`.
Python dicts are association lists of JSON values; a raising call is an
`Except PyError` computation; argument evaluation order follows Python's
left-to-right order.

Part B models the subscription-worker subsystem (worker engine and the
administrative facade).  Its implementation is not under src/ (only its
tests are), so those definitions are modelled from the spec, as their doc
comments state.
-/

/-- A JSON value, as produced by `json.loads`: Python `None`/`bool`/`int`/
`str`/`list`/`dict`.  Dicts are association lists with distinct keys. -/
inductive Json where
  | null : Json
  | bool (b : Bool) : Json
  | num (n : Int) : Json
  | str (s : String) : Json
  | arr (elems : List Json) : Json
  | obj (entries : List (String × Json)) : Json

/-- A Python dict holding JSON values. -/
abbrev PyDict := List (String × Json)

/-- The exceptions the embedded statistics mappers can raise. -/
inductive PyError where
  | keyError (k : String) : PyError
  | valueError (what : String) : PyError
  | typeError (what : String) : PyError
deriving DecidableEq

/-- Python `k in json_dict`. -/
def pyContains (d : PyDict) (k : String) : Bool :=
  (List.lookup k d).isSome

/-- Python `json_dict[k]`: the value, or a raised `KeyError` when absent. -/
def getItem (d : PyDict) (k : String) : Except PyError Json :=
  match List.lookup k d with
  | some v => .ok v
  | none => .error (.keyError k)

/-- A JSON value observed as a Python attribute value: JSON `null` is the
Python `None`, collapsed to `Option.none`. -/
def Json.toPy : Json → Option Json
  | .null => none
  | v => some v

/-- Python `json_dict.get(k, None)` observed as a Python value: `none` both
when the key is absent and when it maps to JSON `null`. -/
def pyGet (d : PyDict) (k : String) : Option Json :=
  match List.lookup k d with
  | some v => v.toPy
  | none => none

/-- Python truthiness of a JSON value (`if json_dict.get(...)`). -/
def Json.isTruthy : Json → Bool
  | .null => false
  | .bool b => b
  | .num n => n != 0
  | .str s => s ≠ ""
  | .arr elems => !elems.isEmpty
  | .obj entries => !entries.isEmpty

/-- Modelled from the spec: the enum classes of
`ravendb.documents.indexes.definitions` (`IndexLockMode`, `IndexPriority`,
`IndexType`, `IndexSourceType`, `IndexState`) are not under src/.  Each is
modelled as a string-valued enum whose constructor accepts any string member
and raises `ValueError` on any non-string value, which is what a Python
string `Enum` call does on `None` or a number. -/
structure PyStrEnum where
  value : String
deriving DecidableEq

/-- Python `EnumClass(value)` for a modelled string enum: `ValueError` on
anything that is not a string. -/
def PyStrEnum.ofJson (cls : String) : Json → Except PyError PyStrEnum
  | .str s => .ok ⟨s⟩
  | _ => .error (.valueError cls)

/-- Modelled from the spec: `Utils.string_to_datetime`
(`ravendb/tools/utils.py` is not under src/).  Datetimes are kept as their
source strings; a non-string argument raises. -/
def string_to_datetime : Json → Except PyError String
  | .str s => .ok s
  | _ => .error (.typeError "string_to_datetime")

/-- The `Size` value object (`ravendb/tools/utils.py`, not under src/). -/
structure Size where
  size_in_bytes : Option Json
  human_size : Option Json

/-- Modelled from the spec: `Size.from_json` (`ravendb/tools/utils.py` is
not under src/).  On the Python `None` that `json_dict.get(key, None)`
yields for an absent key it returns `None`; on a dict it reads the two size
fields; anything else raises. -/
def Size.from_json : Option Json → Except PyError (Option Size)
  | none => .ok none
  | some (.obj entries) => .ok (some ⟨pyGet entries "SizeInBytes", pyGet entries "HumaneSize"⟩)
  | some _ => .error (.typeError "Size.from_json")

/-- `IndexInformation` (statistics.py lines 163-195): the fields in the
order `__init__` assigns them. -/
structure IndexInformation where
  stale : Option Json
  lock_mode : PyStrEnum
  priority : Option PyStrEnum
  type : Option PyStrEnum
  last_indexing_time : Option String
  source_type : Option PyStrEnum
  state : Option PyStrEnum
  name : Option Json

/-- `IndexInformation.from_json` (statistics.py lines 184-195), argument by
argument in Python's left-to-right evaluation order.  `LockMode` alone is
read unguarded (`json_dict["LockMode"]`); every other field is guarded by a
membership check and defaults to `None`. -/
def IndexInformation.from_json (json_dict : PyDict) : Except PyError IndexInformation := do
  let stale : Option Json :=
    if pyContains json_dict "IsStale" then pyGet json_dict "IsStale" else none
  let lock_mode ← do
    let v ← getItem json_dict "LockMode"
    PyStrEnum.ofJson "IndexLockMode" v
  let priority ← do
    if pyContains json_dict "Priority" then
      let v ← getItem json_dict "Priority"
      Except.map some (PyStrEnum.ofJson "IndexPriority" v)
    else pure none
  let ty ← do
    if pyContains json_dict "Type" then
      let v ← getItem json_dict "Type"
      Except.map some (PyStrEnum.ofJson "IndexType" v)
    else pure none
  let lit ← do
    if pyContains json_dict "LastIndexingTime" then
      let v ← getItem json_dict "LastIndexingTime"
      Except.map some (string_to_datetime v)
    else pure none
  let source_type ← do
    if pyContains json_dict "SourceType" then
      let v ← getItem json_dict "SourceType"
      Except.map some (PyStrEnum.ofJson "IndexSourceType" v)
    else pure none
  let state ← do
    if pyContains json_dict "State" then
      let v ← getItem json_dict "State"
      Except.map some (PyStrEnum.ofJson "IndexState" v)
    else pure none
  let name : Option Json :=
    if pyContains json_dict "Name" then pyGet json_dict "Name" else none
  return ⟨stale, lock_mode, priority, ty, lit, source_type, state, name⟩

/-- `DatabaseStatistics` (statistics.py lines 19-66): the 21 fields in
`__init__` order. -/
structure DatabaseStatistics where
  last_doc_etag : Option Json
  last_database_etag : Option Json
  count_of_indexes : Option Json
  count_of_documents : Option Json
  count_of_revision_documents : Option Json
  count_of_documents_conflicts : Option Json
  count_of_tombstones : Option Json
  count_of_conflicts : Option Json
  count_of_attachments : Option Json
  count_of_unique_attachments : Option Json
  count_of_counter_entries : Option Json
  count_of_time_series_segments : Option Json
  indexes : Option (List IndexInformation)
  database_change_vector : Option Json
  database_id : Option Json
  is_64_bit : Option Json
  pager : Option Json
  last_indexing_time : Option String
  size_on_disk : Option Size
  temp_buffers_size_on_disk : Option Size
  number_of_transaction_merger_queue_operations : Option Json

/-- Maps each element of an `Indexes` array through
`IndexInformation.from_json`; a non-dict element raises as Python indexing
into it would. -/
def indexesFromJson : List Json → Except PyError (List IndexInformation)
  | [] => .ok []
  | x :: xs => do
    match x with
    | .obj entries =>
      let i ← IndexInformation.from_json entries
      let rest ← indexesFromJson xs
      return i :: rest
    | _ => .error (.typeError "IndexInformation.from_json")

/-- `DatabaseStatistics.from_json` (statistics.py lines 72-96): every
scalar key is fetched with `json_dict.get(key, None)` and so maps to `None`
when absent; `Indexes` and `LastIndexingTime` are guarded conversions;
the two sizes go through `Size.from_json`. -/
def DatabaseStatistics.from_json (json_dict : PyDict) : Except PyError DatabaseStatistics := do
  let indexes ← do
    if pyContains json_dict "Indexes" then
      let v ← getItem json_dict "Indexes"
      match v with
      | .arr elems => Except.map some (indexesFromJson elems)
      | _ => .error (.typeError "Indexes is not iterable over dicts")
    else pure none
  let lit ← do
    match pyGet json_dict "LastIndexingTime" with
    | some v =>
      if v.isTruthy then
        let d ← string_to_datetime v
        pure (some d)
      else pure none
    | none => pure none
  let size_on_disk ← Size.from_json (pyGet json_dict "SizeOnDisk")
  let temp_buffers ← Size.from_json (pyGet json_dict "TempBuffersSizeOnDisk")
  return ⟨pyGet json_dict "LastDocEtag",
    pyGet json_dict "LastDatabaseEtag",
    pyGet json_dict "CountOfIndexes",
    pyGet json_dict "CountOfDocuments",
    pyGet json_dict "CountOfRevisionDocuments",
    pyGet json_dict "CountOfDocumentsConflicts",
    pyGet json_dict "CountOfTombstones",
    pyGet json_dict "CountOfConflicts",
    pyGet json_dict "CountOfAttachments",
    pyGet json_dict "CountOfUniqueAttachments",
    pyGet json_dict "CountOfCounterEntries",
    pyGet json_dict "CountOfTimeSeriesSegments",
    indexes,
    pyGet json_dict "DatabaseChangeVector",
    pyGet json_dict "DatabaseId",
    pyGet json_dict "Is64Bit",
    pyGet json_dict "Pager",
    lit,
    size_on_disk,
    temp_buffers,
    pyGet json_dict "NumberOfTransactionMergerQueueOperations"⟩

/-- `DetailedDatabaseStatistics` (statistics.py lines 198-252): the base
statistics plus three compare-exchange counters. -/
structure DetailedDatabaseStatistics extends DatabaseStatistics where
  count_of_identities : Option Json
  count_of_compare_exchange : Option Json
  count_of_compare_exchange_tombstones : Option Json

/-- `DetailedDatabaseStatistics.from_json` (statistics.py lines 254-265):
first runs the base `DatabaseStatistics.from_json`, then reads
`CountOfIdentities`, `CountOfCompareExchange` and
`CountOfCompareExchangeTombstones` with unguarded `json_dict[...]`
item access, in that order. -/
def DetailedDatabaseStatistics.from_json (json_dict : PyDict) :
    Except PyError DetailedDatabaseStatistics := do
  let database_stats ← DatabaseStatistics.from_json json_dict
  let ci ← getItem json_dict "CountOfIdentities"
  let cce ← getItem json_dict "CountOfCompareExchange"
  let ccet ← getItem json_dict "CountOfCompareExchangeTombstones"
  return ⟨database_stats, ci.toPy, cce.toPy, ccet.toPy⟩

/-- Whether an `Except` computation returned normally. -/
def exceptOk : Except PyError α → Bool
  | .ok _ => true
  | .error _ => false

/-- The empty-dict result of `DatabaseStatistics.from_json`: every field is
`None`. -/
def emptyDatabaseStatistics : DatabaseStatistics :=
  ⟨none, none, none, none, none, none, none, none, none, none, none,
   none, none, none, none, none, none, none, none, none, none⟩

/-- Claim C10: `IndexInformation.from_json` raises a `KeyError` on every
dict lacking the key `LockMode`, that field alone being read unguarded,
while with `LockMode` alone present all seven guarded fields come out as
`None`. -/
theorem indexInformation_lockMode_keyError (json_dict : PyDict)
    (hmiss : List.lookup "LockMode" json_dict = none) (v : String) :
    IndexInformation.from_json json_dict = .error (.keyError "LockMode")
    ∧ IndexInformation.from_json [("LockMode", Json.str v)] =
        .ok ⟨none, ⟨v⟩, none, none, none, none, none, none⟩ := by
  constructor
  · simp [IndexInformation.from_json, getItem, hmiss, Bind.bind, Except.bind]
  · rfl

/-- Witness for C10 at the concrete dict that has every guarded key but no
`LockMode`. -/
theorem indexInformation_lockMode_keyError_witness :
    IndexInformation.from_json
        [("IsStale", Json.bool false), ("Priority", Json.str "Normal"),
         ("Name", Json.str "Orders-Totals")] = .error (.keyError "LockMode")
    ∧ IndexInformation.from_json [("LockMode", Json.str "Unlock")] =
        .ok ⟨none, ⟨"Unlock"⟩, none, none, none, none, none, none⟩ :=
  indexInformation_lockMode_keyError
    [("IsStale", Json.bool false), ("Priority", Json.str "Normal"),
     ("Name", Json.str "Orders-Totals")] rfl "Unlock"

/-- Claim C9: whenever the base `DatabaseStatistics.from_json` succeeds on a
dict that lacks one of `CountOfIdentities`, `CountOfCompareExchange` or
`CountOfCompareExchangeTombstones`, `DetailedDatabaseStatistics.from_json`
raises a `KeyError` for one of those three keys, whereas
`DatabaseStatistics.from_json` itself maps every absent optional key to a
`None`-valued field instead of failing (witnessed on the all-keys-absent
empty dict). -/
theorem detailedStatistics_requires_compare_exchange_keys (json_dict : PyDict)
    (hbase : exceptOk (DatabaseStatistics.from_json json_dict) = true)
    (hmiss : List.lookup "CountOfIdentities" json_dict = none ∨
             List.lookup "CountOfCompareExchange" json_dict = none ∨
             List.lookup "CountOfCompareExchangeTombstones" json_dict = none) :
    (∃ k, (k = "CountOfIdentities" ∨ k = "CountOfCompareExchange" ∨
           k = "CountOfCompareExchangeTombstones")
        ∧ DetailedDatabaseStatistics.from_json json_dict = .error (.keyError k))
    ∧ DatabaseStatistics.from_json [] = .ok emptyDatabaseStatistics := by
  refine ⟨?_, rfl⟩
  obtain ⟨s, hs⟩ : ∃ s, DatabaseStatistics.from_json json_dict = .ok s := by
    cases h : DatabaseStatistics.from_json json_dict with
    | ok s => exact ⟨s, rfl⟩
    | error e => rw [h] at hbase; simp [exceptOk] at hbase
  cases h1 : List.lookup "CountOfIdentities" json_dict with
  | none =>
    refine ⟨"CountOfIdentities", Or.inl rfl, ?_⟩
    simp [DetailedDatabaseStatistics.from_json, getItem, hs, h1, Bind.bind, Except.bind]
  | some v1 =>
    cases h2 : List.lookup "CountOfCompareExchange" json_dict with
    | none =>
      refine ⟨"CountOfCompareExchange", Or.inr (Or.inl rfl), ?_⟩
      simp [DetailedDatabaseStatistics.from_json, getItem, hs, h1, h2, Bind.bind, Except.bind]
    | some v2 =>
      have h3 : List.lookup "CountOfCompareExchangeTombstones" json_dict = none := by
        rcases hmiss with h | h | h
        · rw [h1] at h; cases h
        · rw [h2] at h; cases h
        · exact h
      refine ⟨"CountOfCompareExchangeTombstones", Or.inr (Or.inr rfl), ?_⟩
      simp [DetailedDatabaseStatistics.from_json, getItem, hs, h1, h2, h3, Bind.bind, Except.bind]

/-- Witness for C9 at a dict carrying base statistics fields but none of
the three compare-exchange counters. -/
theorem detailedStatistics_requires_compare_exchange_keys_witness :
    (∃ k, (k = "CountOfIdentities" ∨ k = "CountOfCompareExchange" ∨
           k = "CountOfCompareExchangeTombstones")
        ∧ DetailedDatabaseStatistics.from_json
            [("LastDocEtag", Json.num 7), ("CountOfDocuments", Json.num 100),
             ("Is64Bit", Json.bool true)] = .error (.keyError k))
    ∧ DatabaseStatistics.from_json [] = .ok emptyDatabaseStatistics :=
  detailedStatistics_requires_compare_exchange_keys
    [("LastDocEtag", Json.num 7), ("CountOfDocuments", Json.num 100),
     ("Is64Bit", Json.bool true)] rfl (Or.inl rfl)

/-- Modelled from the spec (§3): the four opening strategies of
`SubscriptionWorkerOptions.strategy`. -/
inductive SubscriptionOpeningStrategy where
  | openIfFree : SubscriptionOpeningStrategy
  | takeOver : SubscriptionOpeningStrategy
  | waitForFree : SubscriptionOpeningStrategy
  | forceAndKeep : SubscriptionOpeningStrategy
deriving DecidableEq

/-- Modelled from the spec (§3): the server-owned `SubscriptionState`
record — identity, query text and the durable resume cursor, which stays
`none` until the server stores a resume point. -/
structure SubscriptionState where
  subscription_id : Nat
  subscription_name : String
  query : String
  change_vector_for_next_batch_starting_point : Option String := none
  disabled : Bool := false
deriving DecidableEq

/-- Modelled from the spec (§3): `SubscriptionCreationOptions` — an
optional name (the server assigns one when absent), the query, an optional
explicit resume point and a placement hint. -/
structure SubscriptionCreationOptions where
  name : Option String := none
  query : String
  change_vector : Option String := none
  mentor_node : Option String := none
deriving DecidableEq

/-- Modelled from the spec (§3): `SubscriptionUpdateOptions` — the target
subscription identified by name or numeric key, the new query and the
`create_if_missing` flag. -/
structure SubscriptionUpdateOptions where
  name : Option String := none
  key : Option Nat := none
  query : String
  create_if_missing : Bool := false
deriving DecidableEq

/-- Modelled from the spec (§3): `SubscriptionWorkerOptions` — runtime
configuration of one worker; durations are milliseconds. -/
structure SubscriptionWorkerOptions where
  subscription_name : String
  strategy : SubscriptionOpeningStrategy := .openIfFree
  max_docs_per_batch : Nat := 4096
  ignore_subscriber_errors : Bool := false
  time_to_wait_before_connection_retry : Nat := 5000
  max_erroneous_period : Nat := 300000
deriving DecidableEq

/-- Modelled from the spec (§7): the distinguishable failure conditions of
the administrative facade. -/
inductive AdminError where
  | doesNotExist : AdminError
  | ambiguous : AdminError
  | nameCollision : AdminError
deriving DecidableEq

/-- Modelled from the spec (§4.2, §7): the success outcomes of an
administrative `update` — callers can tell a real modification from the
"not modified" no-op. -/
inductive UpdateResult where
  | modified : UpdateResult
  | notModified : UpdateResult
deriving DecidableEq

/-- Modelled from the spec (§2, §5): the server-side picture the client
observes — the persisted subscriptions in creation order, the ownership
slot of each subscription (holder worker id), and the id counter. -/
structure ServerState where
  subscriptions : List SubscriptionState
  holders : List (String × Nat)
  nextId : Nat
deriving DecidableEq

/-- The server before any subscription is created. -/
def initialServer : ServerState := ⟨[], [], 1⟩

/-- Looks a subscription up by name. -/
def findByName (s : ServerState) (n : String) : Option SubscriptionState :=
  s.subscriptions.find? (fun st => st.subscription_name == n)

/-- Looks a subscription up by numeric key. -/
def findById (s : ServerState) (k : Nat) : Option SubscriptionState :=
  s.subscriptions.find? (fun st => st.subscription_id == k)

/-- Modelled from the spec (§4.2): `create` — the server assigns the id and,
when no name is given, the stringified id; a name collision fails; the new
state's resume cursor is the creation options' explicit resume point. -/
def create (s : ServerState) (opts : SubscriptionCreationOptions) :
    Except AdminError (ServerState × String) :=
  let id := s.nextId
  let name := opts.name.getD (toString id)
  if (findByName s name).isSome then .error .nameCollision
  else
    let st : SubscriptionState :=
      ⟨id, name, opts.query, opts.change_vector, false⟩
    .ok ({ s with subscriptions := s.subscriptions ++ [st], nextId := id + 1 }, name)

/-- Modelled from the spec (§3, §4.2): resolution of an update's target.
The numeric key takes precedence; a name that is also given and resolves to
a different subscription makes the combination ambiguous; an absent target
is a "does not exist" condition. -/
def resolveTarget (s : ServerState) (opts : SubscriptionUpdateOptions) :
    Except AdminError SubscriptionState :=
  match opts.key with
  | some k =>
    match findById s k with
    | none => .error .doesNotExist
    | some st =>
      match opts.name with
      | none => .ok st
      | some n =>
        match findByName s n with
        | none => .ok st
        | some st2 =>
          if st2.subscription_id = st.subscription_id then .ok st else .error .ambiguous
  | none =>
    match opts.name with
    | some n =>
      match findByName s n with
      | none => .error .doesNotExist
      | some st => .ok st
    | none => .error .doesNotExist

/-- Modelled from the spec (§4.2): `update` — rewrites the resolved
target's query (reporting "not modified" when the query is unchanged);
an unresolved target fails, or is created afresh when `create_if_missing`
is set and the options carry a name. -/
def update (s : ServerState) (opts : SubscriptionUpdateOptions) :
    Except AdminError (ServerState × UpdateResult) :=
  match resolveTarget s opts with
  | .ok st =>
    let newSubs := s.subscriptions.map fun x =>
      if x.subscription_id = st.subscription_id then { x with query := opts.query } else x
    .ok ({ s with subscriptions := newSubs },
         if st.query = opts.query then .notModified else .modified)
  | .error .doesNotExist =>
    if opts.create_if_missing then
      Except.map (fun p => (p.1, .modified))
        (create s ⟨opts.name, opts.query, none, none⟩)
    else .error .doesNotExist
  | .error e => .error e

/-- Modelled from the spec (§4.2): offset-based pagination over the
subscriptions in creation order. -/
def get_subscriptions (s : ServerState) (start page_size : Nat) :
    List SubscriptionState :=
  (s.subscriptions.drop start).take page_size

/-- Modelled from the spec (§4.2): `get_subscription_state`. -/
def get_subscription_state (s : ServerState) (n : String) :
    Option SubscriptionState :=
  findByName s n

/-- Sets the `disabled` flag of the named subscription. -/
def setDisabledFlag (s : ServerState) (n : String) (b : Bool) : ServerState :=
  { s with subscriptions := s.subscriptions.map fun x =>
      if x.subscription_name == n then { x with disabled := b } else x }

/-- Modelled from the spec (§4.2): `disable` sets the `disabled` flag. -/
def disable (s : ServerState) (n : String) : ServerState :=
  setDisabledFlag s n true

/-- Modelled from the spec (§4.2): `enable` clears the `disabled` flag. -/
def enable (s : ServerState) (n : String) : ServerState :=
  setDisabledFlag s n false

/-- Modelled from the spec (§4.2): `delete` removes the subscription and
its durable cursor. -/
def delete (s : ServerState) (n : String) : ServerState :=
  { s with subscriptions := s.subscriptions.filter fun x => !(x.subscription_name == n) }

/-- The worker currently holding the named subscription's connection. -/
def holderOf (s : ServerState) (n : String) : Option Nat :=
  List.lookup n s.holders

/-- Records a worker as the holder of the named subscription. -/
def setHolder (s : ServerState) (n : String) (wid : Nat) : ServerState :=
  { s with holders := (n, wid) :: s.holders.filter fun p => !(p.1 == n) }

/-- Modelled from the spec (§4.2): `drop_connection` forcibly releases
whichever worker holds the connection without deleting the subscription. -/
def drop_connection (s : ServerState) (n : String) : ServerState :=
  { s with holders := s.holders.filter fun p => !(p.1 == n) }

/-- Modelled from the spec (§3, §5): on acknowledgment the server durably
records the acknowledged change vector as the named subscription's new
resume point. -/
def acknowledge (s : ServerState) (n : String) (cv : String) : ServerState :=
  { s with subscriptions := s.subscriptions.map fun x =>
      if x.subscription_name == n then
        { x with change_vector_for_next_batch_starting_point := some cv } else x }

/-- Modelled from the spec (§4.1, §6): a stored document as the stream sees
it — key, JSON payload and per-item change-vector stamp, listed in the
database in insertion/modification order. -/
structure StoredDoc where
  key : String
  value : Json
  change_vector : String

/-- The `User` entity of the subscription scenarios: the identity property
and the age. -/
structure User where
  Id : String
  age : Int
deriving DecidableEq

/-- Modelled from the spec (§9): per-item deserialization into `User`,
a tagged success-or-failure, never a silent null.  The identity property is
filled from the document key. -/
def deserializeUser (key : String) (value : Json) : Except String User :=
  match value with
  | .obj entries =>
    match List.lookup "age" entries with
    | some (.num a) => .ok ⟨key, a⟩
    | _ => .error "missing or malformed age"
  | _ => .error "document is not an object"

/-- Modelled from the spec (§3): one item of a batch — document key, the
deserialized payload or a per-item deserialization failure, and the item's
change-vector marker. -/
structure SubscriptionBatchItem where
  key : String
  result : Option User
  exception : Option String
  change_vector : String
deriving DecidableEq

/-- Modelled from the spec (§3): a delivered batch is an ordered sequence
of items. -/
structure SubscriptionBatch where
  items : List SubscriptionBatchItem
deriving DecidableEq

/-- `number_of_items_in_batch` equals the length of `items` (spec §3). -/
def SubscriptionBatch.number_of_items_in_batch (b : SubscriptionBatch) : Nat :=
  b.items.length

/-- Splits a list into consecutive runs of at most `n` elements; the
batching discipline of the streaming server. -/
def chunkList (n : Nat) : List α → List (List α)
  | [] => []
  | x :: xs =>
    if _hn : n = 0 then [x :: xs]
    else (x :: xs).take n :: chunkList n ((x :: xs).drop n)
termination_by xs => xs.length
decreasing_by
  simp only [List.length_drop, List.length_cons]
  omega

/-- Builds the batch item of one stored document. -/
def mkItem (d : StoredDoc) : SubscriptionBatchItem :=
  match deserializeUser d.key d.value with
  | .ok u => ⟨d.key, some u, none, d.change_vector⟩
  | .error e => ⟨d.key, none, some e, d.change_vector⟩

/-- Modelled from the spec (§4.1 Streaming): the server pushes the matching
documents, in their database order, as batches of at most
`max_docs_per_batch` items. -/
def mkBatches (max_docs_per_batch : Nat) (docs : List StoredDoc) :
    List SubscriptionBatch :=
  (chunkList max_docs_per_batch docs).map fun c => ⟨c.map mkItem⟩

/-- The user-supplied handler: returns normally or raises (spec §6). -/
abbrev Handler := SubscriptionBatch → Except String Unit

/-- Modelled from the spec (§4.1, §9): the worker's run handle after the
run loop has finished — the batches dispatched to the handler, the batches
acknowledged to the server, the ignored subscriber errors that were
recorded, and the handle's terminal exception (`none` is a clean stop). -/
structure WorkerRun where
  delivered : List SubscriptionBatch
  acknowledged : List SubscriptionBatch
  errors : List String
  terminal : Option String
deriving DecidableEq

/-- Modelled from the spec (§4.1 Dispatch): the receive-dispatch-acknowledge
loop over a finite stream of batches.  A successful handler call is followed
by an acknowledgment; a handler error is recorded and the batch still
acknowledged when `ignore` is set, and otherwise stops the stream without
acknowledging, faulting the run handle with that error; a stream that ends
is a `close()` and completes the handle cleanly. -/
def processLoop (ignore : Bool) (handler : Handler) :
    List SubscriptionBatch → WorkerRun
  | [] => ⟨[], [], [], none⟩
  | b :: rest =>
    match handler b with
    | .ok _ =>
      let r := processLoop ignore handler rest
      ⟨b :: r.delivered, b :: r.acknowledged, r.errors, r.terminal⟩
    | .error e =>
      if ignore then
        let r := processLoop ignore handler rest
        ⟨b :: r.delivered, b :: r.acknowledged, e :: r.errors, r.terminal⟩
      else ⟨[b], [], [], some e⟩

/-- Modelled from the spec (§4.1): `run(handler)` for a worker that holds
the connection, processing the batches the server sends it. -/
def runWorker (opts : SubscriptionWorkerOptions) (handler : Handler)
    (batches : List SubscriptionBatch) : WorkerRun :=
  processLoop opts.ignore_subscriber_errors handler batches

/-- Modelled from the spec (§4.1 StrategyNegotiation): the outcome of the
single, server-mediated handshake step — success, an immediate
"subscription in use" rejection, or a wait. -/
inductive NegotiationResult where
  | accepted : NegotiationResult
  | rejectedInUse : NegotiationResult
  | wait : NegotiationResult
deriving DecidableEq

/-- Modelled from the spec (§4.1): strategy arbitration against the current
holder of the subscription.  `openIfFree` is rejected at once when another
worker holds the connection — there is no retry loop; `takeOver` and
`forceAndKeep` displace the holder; `waitForFree` blocks until free. -/
def negotiate (holder : Option Nat) :
    SubscriptionOpeningStrategy → NegotiationResult
  | .openIfFree => match holder with
    | none => .accepted
    | some _ => .rejectedInUse
  | .takeOver => .accepted
  | .forceAndKeep => .accepted
  | .waitForFree => match holder with
    | none => .accepted
    | some _ => .wait

/-- Modelled from the spec (§5): the state of a started worker's run
handle — running to completion, failed at negotiation, or parked waiting
for the holder to release. -/
inductive StartResult where
  | running (r : WorkerRun) : StartResult
  | failed (e : String) : StartResult
  | waiting : StartResult
deriving DecidableEq

/-- The terminal exception observable on the run handle. -/
def StartResult.runHandleError : StartResult → Option String
  | .running r => r.terminal
  | .failed e => some e
  | .waiting => none

/-- The "subscription in use" condition of spec §4.1 and §7. -/
def subscriptionInUse : String := "SubscriptionInUseException"

/-- Modelled from the spec (§4.1, §5): starting a worker — one negotiation
handshake; on acceptance the worker takes the ownership slot and runs the
receive-dispatch-acknowledge loop; an `openIfFree` rejection becomes the
run handle's terminal error immediately. -/
def startWorker (s : ServerState) (wid : Nat) (opts : SubscriptionWorkerOptions)
    (handler : Handler) (batches : List SubscriptionBatch) :
    StartResult × ServerState :=
  match negotiate (holderOf s opts.subscription_name) opts.strategy with
  | .accepted => (.running (runWorker opts handler batches),
                  setHolder s opts.subscription_name wid)
  | .rejectedInUse => (.failed subscriptionInUse, s)
  | .wait => (.waiting, s)

/-- Modelled from the spec (§4.2): the administrative and acknowledgment
events that mutate the server's persisted picture. -/
inductive ServerOp where
  | createOp (opts : SubscriptionCreationOptions) : ServerOp
  | updateOp (opts : SubscriptionUpdateOptions) : ServerOp
  | enableOp (n : String) : ServerOp
  | disableOp (n : String) : ServerOp
  | deleteOp (n : String) : ServerOp
  | dropOp (n : String) : ServerOp
  | ackOp (n : String) (cv : String) : ServerOp
deriving DecidableEq

/-- Applies one server event; a failed administrative call leaves the
persisted state unchanged. -/
def applyOp (s : ServerState) : ServerOp → ServerState
  | .createOp opts => match create s opts with
    | .ok (s2, _) => s2
    | .error _ => s
  | .updateOp opts => match update s opts with
    | .ok (s2, _) => s2
    | .error _ => s
  | .enableOp n => enable s n
  | .disableOp n => disable s n
  | .deleteOp n => delete s n
  | .dropOp n => drop_connection s n
  | .ackOp n cv => acknowledge s n cv

/-- Runs a trace of server events from a starting state. -/
def runOps (s : ServerState) : List ServerOp → ServerState
  | [] => s
  | op :: rest => runOps (applyOp s op) rest

/-- With error isolation on, the loop delivers and acknowledges every batch
and the run handle carries no terminal error, whatever the handler does. -/
theorem processLoop_ignore_all (handler : Handler)
    (batches : List SubscriptionBatch) :
    (processLoop true handler batches).delivered = batches
    ∧ (processLoop true handler batches).acknowledged = batches
    ∧ (processLoop true handler batches).terminal = none := by
  induction batches with
  | nil => exact ⟨rfl, rfl, rfl⟩
  | cons b rest ih =>
    cases h : handler b with
    | ok u => simp [processLoop, h, ih.1, ih.2.1, ih.2.2]
    | error e => simp [processLoop, h, ih.1, ih.2.1, ih.2.2]

/-- A handler that never raises lets the loop deliver and acknowledge the
whole stream, record no error and stop cleanly. -/
theorem processLoop_ok (ig : Bool) (handler : Handler)
    (batches : List SubscriptionBatch)
    (hok : ∀ b ∈ batches, handler b = .ok ()) :
    processLoop ig handler batches = ⟨batches, batches, [], none⟩ := by
  induction batches with
  | nil => rfl
  | cons b rest ih =>
    have hb : handler b = .ok () := hok b (by simp)
    have hrest := ih fun x hx => hok x (by simp [hx])
    simp [processLoop, hb, hrest]

/-- Claim C1: with `ignore_subscriber_errors = true` and a handler that
raises on every invocation, every delivered batch is still acknowledged,
streaming continues to the end of the stream, and after `close()` the run
handle's terminal exception is `none`. -/
theorem ignore_errors_still_acknowledges
    (opts : SubscriptionWorkerOptions) (handler : Handler)
    (batches : List SubscriptionBatch)
    (hig : opts.ignore_subscriber_errors = true)
    (hraise : ∀ b, ∃ e, handler b = .error e) :
    (runWorker opts handler batches).delivered = batches
    ∧ (runWorker opts handler batches).acknowledged = batches
    ∧ (runWorker opts handler batches).terminal = none := by
  have h1 := hraise
  rw [runWorker, hig]
  exact processLoop_ignore_all handler batches

/-- Witness for C1: a worker over two concrete batches with a handler that
always raises. -/
theorem ignore_errors_still_acknowledges_witness :
    (runWorker ⟨"people", .openIfFree, 4096, true, 5000, 300000⟩
        (fun _ => .error "Fake error")
        [⟨[⟨"users/1-A", some ⟨"users/1-A", 30⟩, none, "A:1"⟩]⟩,
         ⟨[⟨"users/2-A", some ⟨"users/2-A", 40⟩, none, "A:2"⟩]⟩]).delivered
      = [⟨[⟨"users/1-A", some ⟨"users/1-A", 30⟩, none, "A:1"⟩]⟩,
         ⟨[⟨"users/2-A", some ⟨"users/2-A", 40⟩, none, "A:2"⟩]⟩]
    ∧ (runWorker ⟨"people", .openIfFree, 4096, true, 5000, 300000⟩
        (fun _ => .error "Fake error")
        [⟨[⟨"users/1-A", some ⟨"users/1-A", 30⟩, none, "A:1"⟩]⟩,
         ⟨[⟨"users/2-A", some ⟨"users/2-A", 40⟩, none, "A:2"⟩]⟩]).acknowledged
      = [⟨[⟨"users/1-A", some ⟨"users/1-A", 30⟩, none, "A:1"⟩]⟩,
         ⟨[⟨"users/2-A", some ⟨"users/2-A", 40⟩, none, "A:2"⟩]⟩]
    ∧ (runWorker ⟨"people", .openIfFree, 4096, true, 5000, 300000⟩
        (fun _ => .error "Fake error")
        [⟨[⟨"users/1-A", some ⟨"users/1-A", 30⟩, none, "A:1"⟩]⟩,
         ⟨[⟨"users/2-A", some ⟨"users/2-A", 40⟩, none, "A:2"⟩]⟩]).terminal
      = none :=
  ignore_errors_still_acknowledges _ _ _ rfl (fun _ => ⟨"Fake error", rfl⟩)

/-- Dropping the connection of a subscription leaves nobody holding it. -/
theorem holderOf_drop_connection (s : ServerState) (n : String) :
    holderOf (drop_connection s n) n = none := by
  show List.lookup n (s.holders.filter fun p => !(p.1 == n)) = none
  induction s.holders with
  | nil => rfl
  | cons p ps ih =>
    by_cases h : p.1 = n
    · simp [List.filter_cons, h, ih]
    · have h1 : (p.1 == n) = false := beq_eq_false_iff_ne.mpr h
      have h2 : (n == p.1) = false := beq_eq_false_iff_ne.mpr (Ne.symm h)
      simp [List.filter_cons, h1, List.lookup, h2, ih]

/-- Claim C2: while another worker holds the subscription, a worker opened
with `openIfFree` fails in the single negotiation step with the
"subscription in use" condition as its run handle's terminal error; after
`drop_connection` a newly started worker is accepted, runs, and takes the
ownership slot. -/
theorem openIfFree_fails_fast_until_dropped
    (s : ServerState) (w wid wid2 : Nat) (opts : SubscriptionWorkerOptions)
    (handler : Handler) (batches : List SubscriptionBatch)
    (hstrat : opts.strategy = .openIfFree)
    (hheld : holderOf s opts.subscription_name = some w) :
    (startWorker s wid opts handler batches).1.runHandleError = some subscriptionInUse
    ∧ (startWorker (drop_connection s opts.subscription_name) wid2 opts
        handler batches).1 = .running (runWorker opts handler batches)
    ∧ holderOf (startWorker (drop_connection s opts.subscription_name) wid2 opts
        handler batches).2 opts.subscription_name = some wid2 := by
  have hfree : List.lookup opts.subscription_name
      (drop_connection s opts.subscription_name).holders = none :=
    holderOf_drop_connection s opts.subscription_name
  have hheld2 : List.lookup opts.subscription_name s.holders = some w := hheld
  refine ⟨?_, ?_, ?_⟩
  · simp [startWorker, hstrat, hheld2, negotiate, holderOf, StartResult.runHandleError]
  · simp [startWorker, hstrat, hfree, negotiate, holderOf]
  · simp [startWorker, hstrat, hfree, negotiate, holderOf, setHolder, List.lookup]

/-- Witness for C2: a concrete server where worker 1 holds "people" and
worker 2 then worker 3 contend for it. -/
theorem openIfFree_fails_fast_until_dropped_witness :
    (startWorker ⟨[⟨1, "people", "from Users", none, false⟩], [("people", 1)], 2⟩
        2 ⟨"people", .openIfFree, 4096, false, 5000, 300000⟩
        (fun _ => .ok ()) []).1.runHandleError = some subscriptionInUse
    ∧ (startWorker
        (drop_connection ⟨[⟨1, "people", "from Users", none, false⟩], [("people", 1)], 2⟩
          "people")
        3 ⟨"people", .openIfFree, 4096, false, 5000, 300000⟩
        (fun _ => .ok ()) []).1
      = .running (runWorker ⟨"people", .openIfFree, 4096, false, 5000, 300000⟩
          (fun _ => .ok ()) [])
    ∧ holderOf (startWorker
        (drop_connection ⟨[⟨1, "people", "from Users", none, false⟩], [("people", 1)], 2⟩
          "people")
        3 ⟨"people", .openIfFree, 4096, false, 5000, 300000⟩
        (fun _ => .ok ()) []).2 "people" = some 3 :=
  openIfFree_fails_fast_until_dropped
    ⟨[⟨1, "people", "from Users", none, false⟩], [("people", 1)], 2⟩
    1 2 3 ⟨"people", .openIfFree, 4096, false, 5000, 300000⟩
    (fun _ => .ok ()) [] rfl rfl

/-- The batching discipline: chunks concatenate back to the input, no chunk
exceeds the cap, and the number of chunks is the length divided by the cap,
rounded up. -/
theorem chunkList_spec {α : Type} (n : Nat) (hn : 0 < n) (xs : List α) :
    (chunkList n xs).flatten = xs
    ∧ (∀ c ∈ chunkList n xs, c.length ≤ n)
    ∧ (chunkList n xs).length = (xs.length + n - 1) / n := by
  suffices H : ∀ (L : Nat) (ys : List α), ys.length ≤ L →
      (chunkList n ys).flatten = ys
      ∧ (∀ c ∈ chunkList n ys, c.length ≤ n)
      ∧ (chunkList n ys).length = (ys.length + n - 1) / n by
    exact H xs.length xs le_rfl
  intro L
  induction L with
  | zero =>
    intro ys hys
    have hnil : ys = [] := List.length_eq_zero.mp (Nat.le_zero.mp hys)
    subst hnil
    refine ⟨by simp [chunkList], by simp [chunkList], ?_⟩
    have h0 : (n - 1) / n = 0 := Nat.div_eq_of_lt (by omega)
    simp [chunkList, h0]
  | succ L ih =>
    intro ys hys
    match ys with
    | [] =>
      refine ⟨by simp [chunkList], by simp [chunkList], ?_⟩
      have h0 : (n - 1) / n = 0 := Nat.div_eq_of_lt (by omega)
      simp [chunkList, h0]
    | y :: ys2 =>
      have hne : n ≠ 0 := Nat.pos_iff_ne_zero.mp hn
      have hlen1 : 1 ≤ (y :: ys2).length := by simp
      have hdln : ((y :: ys2).drop n).length = (y :: ys2).length - n := by
        simp [List.length_drop]
      have hrec := ih ((y :: ys2).drop n) (by simp at hys ⊢; omega)
      refine ⟨?_, ?_, ?_⟩
      · rw [chunkList]
        simp only [hne, dite_false]
        show List.take n (y :: ys2) ++ (chunkList n (List.drop n (y :: ys2))).flatten = y :: ys2
        rw [hrec.1, List.take_append_drop]
      · intro c hc
        rw [chunkList] at hc
        simp only [hne, dite_false, List.mem_cons] at hc
        rcases hc with hc | hc
        · subst hc
          simp [List.length_take]
        · exact hrec.2.1 c hc
      · rw [chunkList]
        simp only [hne, dite_false, List.length_cons]
        rw [hrec.2.2, hdln]
        simp only [List.length_cons]
        rcases Nat.lt_or_ge n (ys2.length + 1) with hcase | hcase
        · have e1 : ys2.length + 1 - n + n - 1 = ys2.length + 1 - 1 := by omega
          have e2 : ys2.length + 1 + n - 1 = (ys2.length + 1 - 1) + n := by omega
          rw [e1, e2, Nat.add_div_right _ hn]
        · have e1 : ys2.length + 1 - n = 0 := by omega
          have e3 : (ys2.length + 1 + n - 1) / n = 1 := by
            have hlo : 1 * n ≤ ys2.length + 1 + n - 1 := by omega
            exact Nat.div_eq_of_lt_le hlo (by omega)
          rw [e1, e3]
          have e2 : (0 + n - 1) / n = 0 := Nat.div_eq_of_lt (by omega)
          rw [e2]

/-- Claim C3: with 100 matching documents and `max_docs_per_batch = 25` the
worker receives exactly 4 batches, each of at most 25 items, whose item
counts sum to 100; and in general no delivered batch ever exceeds
`max_docs_per_batch`. -/
theorem max_docs_per_batch_respected
    (docs : List StoredDoc) (hlen : docs.length = 100)
    (opts : SubscriptionWorkerOptions) (hmax : opts.max_docs_per_batch = 25)
    (handler : Handler) (hok : ∀ b, handler b = .ok ()) :
    (runWorker opts handler (mkBatches opts.max_docs_per_batch docs)).delivered
        = mkBatches 25 docs
    ∧ (mkBatches 25 docs).length = 4
    ∧ (∀ b ∈ mkBatches 25 docs, b.number_of_items_in_batch ≤ 25)
    ∧ ((mkBatches 25 docs).map SubscriptionBatch.number_of_items_in_batch).sum = 100
    ∧ ∀ (m : Nat) (ds : List StoredDoc), 0 < m →
        ∀ b ∈ mkBatches m ds, b.number_of_items_in_batch ≤ m := by
  have hgen : ∀ (m : Nat) (ds : List StoredDoc), 0 < m →
      ∀ b ∈ mkBatches m ds, b.number_of_items_in_batch ≤ m := by
    intro m ds hm b hb
    simp only [mkBatches, List.mem_map] at hb
    obtain ⟨c, hc, rfl⟩ := hb
    have := (chunkList_spec m hm ds).2.1 c hc
    simpa [SubscriptionBatch.number_of_items_in_batch] using this
  have hspec := chunkList_spec 25 (by norm_num) docs
  refine ⟨?_, ?_, ?_, ?_, hgen⟩
  · rw [hmax, runWorker, processLoop_ok _ _ _ (fun b _ => hok b)]
  · simp [mkBatches, hspec.2.2, hlen]
  · exact hgen 25 docs (by norm_num)
  · have h1 : (mkBatches 25 docs).map SubscriptionBatch.number_of_items_in_batch
        = (chunkList 25 docs).map List.length := by
      simp [mkBatches, List.map_map, SubscriptionBatch.number_of_items_in_batch,
        Function.comp]
    rw [h1, ← List.length_flatten, hspec.1, hlen]

/-- Witness for C3 at 100 concrete documents. -/
theorem max_docs_per_batch_respected_witness :
    ((runWorker ⟨"companies", .openIfFree, 25, false, 5000, 300000⟩ (fun _ => .ok ())
        (mkBatches 25 ((List.range 100).map fun i =>
          ⟨"companies/" ++ toString i, Json.obj [("age", Json.num 0)], toString i⟩))).delivered
      = mkBatches 25 ((List.range 100).map fun i =>
          ⟨"companies/" ++ toString i, Json.obj [("age", Json.num 0)], toString i⟩))
    ∧ (mkBatches 25 ((List.range 100).map fun i =>
          ⟨"companies/" ++ toString i, Json.obj [("age", Json.num 0)], toString i⟩)).length = 4
    ∧ (∀ b ∈ mkBatches 25 ((List.range 100).map fun i =>
          ⟨"companies/" ++ toString i, Json.obj [("age", Json.num 0)], toString i⟩),
        b.number_of_items_in_batch ≤ 25)
    ∧ ((mkBatches 25 ((List.range 100).map fun i =>
          ⟨"companies/" ++ toString i, Json.obj [("age", Json.num 0)], toString i⟩)).map
        SubscriptionBatch.number_of_items_in_batch).sum = 100
    ∧ ∀ (m : Nat) (ds : List StoredDoc), 0 < m →
        ∀ b ∈ mkBatches m ds, b.number_of_items_in_batch ≤ m :=
  max_docs_per_batch_respected _ (by simp)
    ⟨"companies", .openIfFree, 25, false, 5000, 300000⟩ rfl _ (fun _ => rfl)

/-- The documents of the insertion-order scenario: `users/1`, `users/12`,
`users/3` stored in that order with ages 31, 27, 25. -/
def scenarioDocs : List StoredDoc :=
  [⟨"users/1", Json.obj [("age", Json.num 31)], "A:1"⟩,
   ⟨"users/12", Json.obj [("age", Json.num 27)], "A:2"⟩,
   ⟨"users/3", Json.obj [("age", Json.num 25)], "A:3"⟩]

/-- Claim C4: a worker with default options over the scenario documents
delivers items whose keys appear in insertion order `users/1`, `users/12`,
`users/3` and whose deserialized results carry the ages 31, 27, 25. -/
theorem insertion_order_delivery
    (opts : SubscriptionWorkerOptions) (n : String)
    (hopts : opts = { subscription_name := n })
    (handler : Handler) (hok : ∀ b, handler b = .ok ()) :
    (((runWorker opts handler
          (mkBatches opts.max_docs_per_batch scenarioDocs)).delivered.map
        SubscriptionBatch.items).flatten.map SubscriptionBatchItem.key)
      = ["users/1", "users/12", "users/3"]
    ∧ (((runWorker opts handler
          (mkBatches opts.max_docs_per_batch scenarioDocs)).delivered.map
        SubscriptionBatch.items).flatten.map SubscriptionBatchItem.result)
      = [some ⟨"users/1", 31⟩, some ⟨"users/12", 27⟩, some ⟨"users/3", 25⟩] := by
  have hdel : (runWorker opts handler
      (mkBatches opts.max_docs_per_batch scenarioDocs)).delivered
      = mkBatches opts.max_docs_per_batch scenarioDocs := by
    rw [runWorker, processLoop_ok _ _ _ (fun b _ => hok b)]
  rw [hdel, hopts]
  constructor
  · simp [mkBatches, chunkList, scenarioDocs, mkItem, deserializeUser, List.lookup]
  · simp [mkBatches, chunkList, scenarioDocs, mkItem, deserializeUser, List.lookup]

/-- Witness for C4 with a concrete always-succeeding handler. -/
theorem insertion_order_delivery_witness :
    (((runWorker { subscription_name := "users" } (fun _ => .ok ())
          (mkBatches (SubscriptionWorkerOptions.max_docs_per_batch
            { subscription_name := "users" }) scenarioDocs)).delivered.map
        SubscriptionBatch.items).flatten.map SubscriptionBatchItem.key)
      = ["users/1", "users/12", "users/3"]
    ∧ (((runWorker { subscription_name := "users" } (fun _ => .ok ())
          (mkBatches (SubscriptionWorkerOptions.max_docs_per_batch
            { subscription_name := "users" }) scenarioDocs)).delivered.map
        SubscriptionBatch.items).flatten.map SubscriptionBatchItem.result)
      = [some ⟨"users/1", 31⟩, some ⟨"users/12", 27⟩, some ⟨"users/3", 25⟩] :=
  insertion_order_delivery { subscription_name := "users" } "users" rfl
    (fun _ => .ok ()) (fun _ => rfl)

/-- A subscription found by name is one of the server's subscriptions. -/
theorem findByName_mem (s : ServerState) (n : String) (st : SubscriptionState)
    (h : findByName s n = some st) : st ∈ s.subscriptions :=
  List.mem_of_find?_eq_some h

/-- A subscription found by key is one of the server's subscriptions. -/
theorem findById_mem (s : ServerState) (k : Nat) (st : SubscriptionState)
    (h : findById s k = some st) : st ∈ s.subscriptions :=
  List.mem_of_find?_eq_some h

/-- A successfully resolved update target is one of the server's
subscriptions. -/
theorem resolveTarget_mem (s : ServerState) (opts : SubscriptionUpdateOptions)
    (st : SubscriptionState) (h : resolveTarget s opts = .ok st) :
    st ∈ s.subscriptions := by
  rcases hkey : opts.key with _ | k
  · rcases hname : opts.name with _ | n
    · simp [resolveTarget, hkey, hname] at h
    · rcases hf : findByName s n with _ | st1
      · simp [resolveTarget, hkey, hname, hf] at h
      · simp [resolveTarget, hkey, hname, hf] at h
        subst h
        exact findByName_mem s n st1 hf
  · rcases hf : findById s k with _ | st1
    · simp [resolveTarget, hkey, hf] at h
    · rcases hname : opts.name with _ | n
      · simp [resolveTarget, hkey, hf, hname] at h
        subst h
        exact findById_mem s k st1 hf
      · rcases hf2 : findByName s n with _ | st2
        · simp [resolveTarget, hkey, hf, hname, hf2] at h
          subst h
          exact findById_mem s k st1 hf
        · by_cases heq : st2.subscription_id = st1.subscription_id
          · simp [resolveTarget, hkey, hf, hname, hf2, heq] at h
            subst h
            exact findById_mem s k st1 hf
          · simp [resolveTarget, hkey, hf, hname, hf2, heq] at h

/-- Claim C5: an update whose resolved target is absent — unknown name
without a key, or an unknown numeric key (also when an existing name is
given alongside it, the key taking precedence) — fails synchronously with
the "does not exist" condition, distinct from the other administrative
failure conditions. -/
theorem update_absent_target_does_not_exist
    (s : ServerState) (opts : SubscriptionUpdateOptions)
    (hc : opts.create_if_missing = false)
    (habs : (opts.key = none ∧ ∃ n, opts.name = some n ∧ findByName s n = none)
          ∨ (∃ k, opts.key = some k ∧ findById s k = none)) :
    update s opts = .error .doesNotExist
    ∧ AdminError.doesNotExist ≠ AdminError.ambiguous
    ∧ AdminError.doesNotExist ≠ AdminError.nameCollision := by
  have hres : resolveTarget s opts = .error .doesNotExist := by
    rcases habs with ⟨hk, n, hn, hf⟩ | ⟨k, hk, hf⟩
    · simp [resolveTarget, hk, hn, hf]
    · simp [resolveTarget, hk, hf]
  exact ⟨by simp [update, hres, hc], by decide, by decide⟩

/-- Witness for C5: updating the unknown name "Update", the unknown key
322, and the existing name "Created" paired with the unknown key 322. -/
theorem update_absent_target_does_not_exist_witness :
    (update initialServer ⟨some "Update", none, "from Users", false⟩
        = .error .doesNotExist)
    ∧ (update ⟨[⟨1, "Created", "from Users", none, false⟩], [], 2⟩
          ⟨some "Update", some 322, "from Users", false⟩ = .error .doesNotExist)
    ∧ (update ⟨[⟨1, "Created", "from Users", none, false⟩], [], 2⟩
          ⟨some "Created", some 322, "from Users", false⟩ = .error .doesNotExist) :=
  ⟨(update_absent_target_does_not_exist initialServer
      ⟨some "Update", none, "from Users", false⟩ rfl
      (Or.inl ⟨rfl, "Update", rfl, rfl⟩)).1,
   (update_absent_target_does_not_exist
      ⟨[⟨1, "Created", "from Users", none, false⟩], [], 2⟩
      ⟨some "Update", some 322, "from Users", false⟩ rfl
      (Or.inr ⟨322, rfl, rfl⟩)).1,
   (update_absent_target_does_not_exist
      ⟨[⟨1, "Created", "from Users", none, false⟩], [], 2⟩
      ⟨some "Created", some 322, "from Users", false⟩ rfl
      (Or.inr ⟨322, rfl, rfl⟩)).1⟩

/-- Claim C6: updating an existing subscription with a query identical to
its current one succeeds as "not modified" and returns the server state
unchanged, so every observation of the subscription's name, query and id
before and after the call is equal. -/
theorem update_identical_query_not_modified
    (s : ServerState) (opts : SubscriptionUpdateOptions) (st : SubscriptionState)
    (hnodup : (s.subscriptions.map SubscriptionState.subscription_id).Nodup)
    (hres : resolveTarget s opts = .ok st)
    (hq : opts.query = st.query) :
    update s opts = .ok (s, .notModified) := by
  have hmem := resolveTarget_mem s opts st hres
  have hmap : (s.subscriptions.map fun x =>
      if x.subscription_id = st.subscription_id
      then { x with query := opts.query } else x) = s.subscriptions := by
    have hid : ∀ x ∈ s.subscriptions,
        (if x.subscription_id = st.subscription_id
         then { x with query := opts.query } else x) = x := by
      intro x hx
      by_cases hxid : x.subscription_id = st.subscription_id
      · have hxst : x = st := List.inj_on_of_nodup_map hnodup hx hmem hxid
        subst hxst
        rw [if_pos hxid, hq]
      · rw [if_neg hxid]
    calc (s.subscriptions.map fun x =>
        if x.subscription_id = st.subscription_id
        then { x with query := opts.query } else x)
        = s.subscriptions.map id := List.map_congr_left hid
      _ = s.subscriptions := List.map_id s.subscriptions
  rw [hq] at hmap
  simp [update, hres, hmap, hq]

/-- Witness for C6: re-submitting the query of the sole subscription
"Created". -/
theorem update_identical_query_not_modified_witness :
    update ⟨[⟨1, "Created", "from Users", none, false⟩], [], 2⟩
        ⟨some "Created", none, "from Users", false⟩
      = .ok (⟨[⟨1, "Created", "from Users", none, false⟩], [], 2⟩, .notModified) :=
  update_identical_query_not_modified
    ⟨[⟨1, "Created", "from Users", none, false⟩], [], 2⟩
    ⟨some "Created", none, "from Users", false⟩
    ⟨1, "Created", "from Users", none, false⟩
    (by simp) rfl rfl

/-- Looking a name up after a name-preserving in-place update of that name
is the update of the original lookup. -/
theorem find?_name_update (l : List SubscriptionState) (n : String)
    (f : SubscriptionState → SubscriptionState)
    (hf : ∀ x, (f x).subscription_name = x.subscription_name) :
    (l.map fun x => if x.subscription_name == n then f x else x).find?
        (fun x => x.subscription_name == n)
      = (l.find? fun x => x.subscription_name == n).map f := by
  induction l with
  | nil => rfl
  | cons x xs ih =>
    simp only [List.map_cons]
    by_cases h : x.subscription_name = n
    · have hb : (x.subscription_name == n) = true := beq_iff_eq.mpr h
      have hfb : ((f x).subscription_name == n) = true := by rw [hf x]; exact hb
      rw [if_pos hb]
      simp only [List.find?, hfb, hb]
      rfl
    · have hb : (x.subscription_name == n) = false := beq_eq_false_iff_ne.mpr h
      have hb2 : ¬((x.subscription_name == n) = true) := by simp [hb]
      rw [if_neg hb2]
      simp only [List.find?, hb]
      exact ih

/-- Claim C7: for an existing subscription, `disable` makes the record
listed by `get_subscriptions` / returned by `get_subscription_state` carry
`disabled = true`, and a subsequent `enable` reverts the flag to `false`,
restoring the original record when it was not disabled before. -/
theorem disable_enable_roundtrip
    (s : ServerState) (n : String) (st : SubscriptionState)
    (hst : get_subscription_state s n = some st) :
    get_subscription_state (disable s n) n = some { st with disabled := true }
    ∧ (∃ st2 ∈ get_subscriptions (disable s n) 0 (disable s n).subscriptions.length,
         st2.subscription_name = st.subscription_name ∧ st2.disabled = true)
    ∧ get_subscription_state (enable (disable s n) n) n = some { st with disabled := false }
    ∧ (st.disabled = false → get_subscription_state (enable (disable s n) n) n = some st) := by
  have hst0 : (s.subscriptions.find? fun x => x.subscription_name == n) = some st := hst
  have hD : get_subscription_state (disable s n) n
      = (s.subscriptions.find? fun x => x.subscription_name == n).map
          (fun x => { x with disabled := true }) :=
    find?_name_update s.subscriptions n _ (fun x => rfl)
  have h1 : get_subscription_state (disable s n) n = some { st with disabled := true } := by
    rw [hD, hst0]; rfl
  have hE : get_subscription_state (enable (disable s n) n) n
      = ((disable s n).subscriptions.find? fun x => x.subscription_name == n).map
          (fun x => { x with disabled := false }) :=
    find?_name_update (disable s n).subscriptions n _ (fun x => rfl)
  have h3 : get_subscription_state (enable (disable s n) n) n
      = some { st with disabled := false } := by
    have h1f : ((disable s n).subscriptions.find? fun x => x.subscription_name == n)
        = some { st with disabled := true } := h1
    rw [hE, h1f]; rfl
  refine ⟨h1, ?_, h3, ?_⟩
  · have hmem : { st with disabled := true } ∈ (disable s n).subscriptions :=
      List.mem_of_find?_eq_some h1
    exact ⟨{ st with disabled := true }, by simpa [get_subscriptions] using hmem, rfl, rfl⟩
  · intro hfd
    have hstF : { st with disabled := false } = st := by
      cases st
      simp_all
    rw [h3, hstF]

/-- Witness for C7 on a one-subscription server. -/
theorem disable_enable_roundtrip_witness :
    get_subscription_state
        (disable ⟨[⟨1, "people", "from Users", none, false⟩], [], 2⟩ "people") "people"
      = some ⟨1, "people", "from Users", none, true⟩
    ∧ (∃ st2 ∈ get_subscriptions
          (disable ⟨[⟨1, "people", "from Users", none, false⟩], [], 2⟩ "people") 0
          (disable ⟨[⟨1, "people", "from Users", none, false⟩], [], 2⟩
            "people").subscriptions.length,
         st2.subscription_name = "people" ∧ st2.disabled = true)
    ∧ get_subscription_state
        (enable (disable ⟨[⟨1, "people", "from Users", none, false⟩], [], 2⟩ "people")
          "people")
        "people"
      = some ⟨1, "people", "from Users", none, false⟩
    ∧ (false = false → get_subscription_state
        (enable (disable ⟨[⟨1, "people", "from Users", none, false⟩], [], 2⟩ "people")
          "people")
        "people"
      = some ⟨1, "people", "from Users", none, false⟩) :=
  disable_enable_roundtrip ⟨[⟨1, "people", "from Users", none, false⟩], [], 2⟩
    "people" ⟨1, "people", "from Users", none, false⟩ rfl

/-- No subscription named `n` carries a resume point yet. -/
def noResumePointFor (n : String) (s : ServerState) : Prop :=
  ∀ st ∈ s.subscriptions, st.subscription_name = n →
    st.change_vector_for_next_batch_starting_point = none

/-- A creation without an explicit resume point preserves the absence of a
resume point. -/
theorem create_noResumePoint (n : String) (s : ServerState)
    (opts : SubscriptionCreationOptions) (hcv : opts.change_vector = none)
    (hs : noResumePointFor n s) (s2 : ServerState) (nm : String)
    (hc : create s opts = .ok (s2, nm)) : noResumePointFor n s2 := by
  unfold create at hc
  by_cases hcol : (findByName s (opts.name.getD (toString s.nextId))).isSome
  · rw [if_pos hcol] at hc
    cases hc
  · rw [if_neg hcol] at hc
    injection hc with hc1
    injection hc1 with hc2 hc3
    subst hc2
    intro st hmem hname
    rcases List.mem_append.mp hmem with hmem2 | hmem2
    · exact hs st hmem2 hname
    · rw [List.mem_singleton] at hmem2
      subst hmem2
      exact hcv

/-- A query-rewriting map preserves the absence of a resume point. -/
theorem map_query_noResumePoint (n : String) (l : List SubscriptionState)
    (target : Nat) (q : String)
    (hl : ∀ st ∈ l, st.subscription_name = n →
      st.change_vector_for_next_batch_starting_point = none) :
    ∀ st ∈ l.map (fun x =>
        if x.subscription_id = target then { x with query := q } else x),
      st.subscription_name = n →
      st.change_vector_for_next_batch_starting_point = none := by
  intro st hmem hname
  rw [List.mem_map] at hmem
  obtain ⟨x, hx, hxe⟩ := hmem
  by_cases hid : x.subscription_id = target
  · rw [if_pos hid] at hxe
    subst hxe
    exact hl x hx hname
  · rw [if_neg hid] at hxe
    subst hxe
    exact hl x hx hname

/-- One server event keeps the resume point absent, provided it is not an
acknowledgment for that subscription and creates nothing with an explicit
resume point. -/
theorem applyOp_noResumePoint (n : String) (s : ServerState) (op : ServerOp)
    (hop : ∀ opts, op = .createOp opts → opts.change_vector = none)
    (hnack : ∀ cv, op ≠ .ackOp n cv)
    (hs : noResumePointFor n s) : noResumePointFor n (applyOp s op) := by
  cases op with
  | createOp opts =>
    have hcv := hop opts rfl
    show noResumePointFor n (match create s opts with
      | .ok (s2, _) => s2 | .error _ => s)
    cases hc : create s opts with
    | error e => exact hs
    | ok p =>
      obtain ⟨s2, nm⟩ := p
      exact create_noResumePoint n s opts hcv hs s2 nm hc
  | updateOp opts =>
    show noResumePointFor n (match update s opts with
      | .ok (s2, _) => s2 | .error _ => s)
    cases hu : update s opts with
    | error e => exact hs
    | ok p =>
      obtain ⟨s2, r⟩ := p
      show noResumePointFor n s2
      unfold update at hu
      cases hres : resolveTarget s opts with
      | ok st0 =>
        rw [hres] at hu
        injection hu with hu1
        have hp1 : s2 = { s with subscriptions := s.subscriptions.map fun x =>
            if x.subscription_id = st0.subscription_id
            then { x with query := opts.query } else x } :=
          congrArg Prod.fst hu1.symm
        rw [hp1]
        exact map_query_noResumePoint n s.subscriptions st0.subscription_id opts.query hs
      | error e =>
        rw [hres] at hu
        cases e with
        | doesNotExist =>
          by_cases hflag : opts.create_if_missing
          · rw [if_pos hflag] at hu
            cases hc : create s ⟨opts.name, opts.query, none, none⟩ with
            | error e2 => rw [hc] at hu; cases hu
            | ok q =>
              obtain ⟨qs, qn⟩ := q
              rw [hc] at hu
              injection hu with hu1
              have hp1 : s2 = qs := congrArg Prod.fst hu1.symm
              rw [hp1]
              exact create_noResumePoint n s _ rfl hs qs qn hc
          · rw [if_neg hflag] at hu
            cases hu
        | ambiguous => cases hu
        | nameCollision => cases hu
  | enableOp m =>
    intro st hmem hname
    show _
    rw [show applyOp s (.enableOp m) = enable s m from rfl] at hmem
    unfold enable setDisabledFlag at hmem
    rw [List.mem_map] at hmem
    obtain ⟨x, hx, hxe⟩ := hmem
    by_cases hm : (x.subscription_name == m) = true
    · rw [if_pos hm] at hxe; subst hxe; exact hs x hx hname
    · rw [if_neg hm] at hxe; subst hxe; exact hs x hx hname
  | disableOp m =>
    intro st hmem hname
    rw [show applyOp s (.disableOp m) = disable s m from rfl] at hmem
    unfold disable setDisabledFlag at hmem
    rw [List.mem_map] at hmem
    obtain ⟨x, hx, hxe⟩ := hmem
    by_cases hm : (x.subscription_name == m) = true
    · rw [if_pos hm] at hxe; subst hxe; exact hs x hx hname
    · rw [if_neg hm] at hxe; subst hxe; exact hs x hx hname
  | deleteOp m =>
    intro st hmem hname
    rw [show applyOp s (.deleteOp m) = delete s m from rfl] at hmem
    unfold delete at hmem
    exact hs st (List.mem_of_mem_filter hmem) hname
  | dropOp m => exact hs
  | ackOp m cv =>
    have hm : m ≠ n := fun he => hnack cv (by rw [he])
    intro st hmem hname
    rw [show applyOp s (.ackOp m cv) = acknowledge s m cv from rfl] at hmem
    unfold acknowledge at hmem
    rw [List.mem_map] at hmem
    obtain ⟨x, hx, hxe⟩ := hmem
    by_cases hxm : (x.subscription_name == m) = true
    · exfalso
      apply hm
      have hxn : x.subscription_name = n := by
        by_cases hc2 : (x.subscription_name == m) = true
        · rw [if_pos hc2] at hxe
          subst hxe
          exact hname
        · exact absurd hxm hc2
      rw [← beq_iff_eq.mp hxm, hxn]
    · rw [if_neg hxm] at hxe
      subst hxe
      exact hs x hx hname

/-- A trace of server events that never acknowledges subscription `n` and
creates nothing with an explicit resume point keeps `n`'s resume point
absent. -/
theorem runOps_noResumePoint (n : String) (ops : List ServerOp) :
    ∀ (s : ServerState),
      (∀ opts, ServerOp.createOp opts ∈ ops → opts.change_vector = none) →
      (∀ cv, ServerOp.ackOp n cv ∉ ops) →
      noResumePointFor n s → noResumePointFor n (runOps s ops) := by
  induction ops with
  | nil => intro s _ _ hs; exact hs
  | cons op rest ih =>
    intro s hcv hnack hs
    show noResumePointFor n (runOps (applyOp s op) rest)
    refine ih (applyOp s op) (fun o ho => hcv o (List.mem_cons_of_mem op ho))
      (fun cv hc => hnack cv (List.mem_cons_of_mem op hc)) ?_
    exact applyOp_noResumePoint n s op
      (fun opts he => hcv opts (by rw [he]; exact List.mem_cons_self _ _))
      (fun cv he => hnack cv (by rw [← he]; exact List.mem_cons_self _ _))
      hs

/-- Event traces compose. -/
theorem runOps_append (s : ServerState) (l1 l2 : List ServerOp) :
    runOps s (l1 ++ l2) = runOps (runOps s l1) l2 := by
  induction l1 generalizing s with
  | nil => rfl
  | cons op rest ih => simp only [List.cons_append, runOps]; exact ih (applyOp s op)

/-- Claim C8 counterexample: the claim as stated fails — a subscription
newly created with an explicit resume point in its creation options
(spec §3) has a non-null `change_vector_for_next_batch_starting_point`
although no batch was ever acknowledged. -/
theorem cursor_nonnull_without_ack_counterexample :
    (∀ cv, ServerOp.ackOp "s1" cv ∉
      [ServerOp.createOp ⟨some "s1", "from Users", some "A:1", none⟩])
    ∧ ∃ st, get_subscription_state
        (runOps initialServer
          [ServerOp.createOp ⟨some "s1", "from Users", some "A:1", none⟩]) "s1"
        = some st
      ∧ st.change_vector_for_next_batch_starting_point ≠ none := by
  constructor
  · intro cv h
    simp at h
  · exact ⟨⟨1, "s1", "from Users", some "A:1", false⟩, rfl, by simp⟩

/-- Claim C8 (amended): for a subscription created without an explicit
resume point, as long as no acknowledgment for it appears in the server's
event trace, `get_subscription_state` shows a null
`change_vector_for_next_batch_starting_point`; the cursor becomes non-null
(the acknowledged change vector) once the first acknowledgment arrives. -/
theorem cursor_null_until_first_ack
    (ops : List ServerOp) (n : String)
    (hcv : ∀ opts, ServerOp.createOp opts ∈ ops → opts.change_vector = none)
    (hnack : ∀ cv, ServerOp.ackOp n cv ∉ ops)
    (st : SubscriptionState)
    (hst : get_subscription_state (runOps initialServer ops) n = some st) :
    st.change_vector_for_next_batch_starting_point = none
    ∧ ∀ (cv : String) (st2 : SubscriptionState),
        get_subscription_state (runOps initialServer (ops ++ [ServerOp.ackOp n cv])) n
          = some st2 →
        st2.change_vector_for_next_batch_starting_point = some cv := by
  have hinv := runOps_noResumePoint n ops initialServer hcv hnack
    (by intro st0 hmem _; simp [initialServer] at hmem)
  have hfind : ((runOps initialServer ops).subscriptions.find? fun x =>
      x.subscription_name == n) = some st := hst
  have hmem : st ∈ (runOps initialServer ops).subscriptions :=
    List.mem_of_find?_eq_some hfind
  have hname := List.find?_some hfind
  have hname2 : st.subscription_name = n := by
    rw [← beq_iff_eq]
    exact hname
  refine ⟨hinv st hmem hname2, ?_⟩
  intro cv st2 hst2
  rw [runOps_append] at hst2
  have hmap : get_subscription_state
      (acknowledge (runOps initialServer ops) n cv) n
      = ((runOps initialServer ops).subscriptions.find? fun x =>
          x.subscription_name == n).map
        (fun x => { x with change_vector_for_next_batch_starting_point := some cv }) :=
    find?_name_update _ n _ (fun x => rfl)
  have hst4 : get_subscription_state
      (acknowledge (runOps initialServer ops) n cv) n = some st2 := hst2
  rw [hmap, hfind] at hst4
  have hst5 : some { st with
      change_vector_for_next_batch_starting_point := some cv } = some st2 := hst4
  injection hst5 with hst6
  rw [← hst6]

/-- Witness for C8 (amended) at a single default creation. -/
theorem cursor_null_until_first_ack_witness :
    SubscriptionState.change_vector_for_next_batch_starting_point
        ⟨1, "s1", "from Users", none, false⟩ = none
    ∧ ∀ (cv : String) (st2 : SubscriptionState),
        get_subscription_state
          (runOps initialServer
            ([ServerOp.createOp ⟨some "s1", "from Users", none, none⟩]
              ++ [ServerOp.ackOp "s1" cv])) "s1" = some st2 →
        st2.change_vector_for_next_batch_starting_point = some cv :=
  cursor_null_until_first_ack
    [ServerOp.createOp ⟨some "s1", "from Users", none, none⟩] "s1"
    (by intro opts h; simp at h; rw [h]) (by intro cv h; simp at h)
    ⟨1, "s1", "from Users", none, false⟩ rfl
